import Mathlib

/-!
Shallow embedding of `tenant_schemas/models.py` (django-tenants-rls):
tenant-context resolution (`get_tenant`), the bulk-delete aggregator
(`TenantQueryset.delete`), the tenant lifecycle notifier (`TenantMixin.save`),
the schema-constraint checks (`MultitenantMixin.check`), and the
primary-domain coordinator (`DomainMixin.save`).

Conventions: Python `None`-able values are `Option`; raised exceptions are
`Except.error`; Python dicts are insertion-ordered association lists; a
database table is a list of records; a Django model class is a
`TableDescriptor` carrying the metadata the checks inspect. Message strings
are kept as in the source except that apostrophes are dropped.
-/

deriving instance DecidableEq for Except

namespace TenantSchemas

/-- A persisted tenant identity (an instance of a model inheriting
`TenantMixin`): `pk` is the stored primary key (`none` before the first
successful save), plus the two declared columns. -/
structure TenantRecord where
  pk : Option Nat
  domain_url : String
  schema_name : String
deriving DecidableEq

/-- `connection.tenant` as bound by the surrounding infrastructure: either an
instance of the configured tenant model, or some other object carrying at
least a `schema_name` attribute (a `domain_url` attribute is recorded too, to
show it is not carried over by `get_tenant`). -/
inductive BoundTenant where
  | instanceOfModel (t : TenantRecord)
  | otherObject (schema_name : String) (domain_url : String)
deriving DecidableEq

/-- The exception raised by `get_tenant` when `connection.tenant is None`. -/
inductive TenantLookupError where
  | noTenantConfigured (msg : String)
deriving DecidableEq

/-- `get_tenant` (models.py:11-20): raises when no tenant is bound on the
connection; returns the bound tenant unchanged if it already is an instance
of the tenant model, else constructs `model(schema_name=tenant.schema_name)`
(a fresh instance: `pk = None`, `domain_url` left at the field default). -/
def get_tenant (conn_tenant : Option BoundTenant) : Except TenantLookupError TenantRecord :=
  match conn_tenant with
  | none => .error (.noTenantConfigured "No tenant configured in db connection, connection.tenant is none")
  | some (.instanceOfModel t) => .ok t
  | some (.otherObject sn _du) => .ok { pk := none, domain_url := "", schema_name := sn }

/-- The lifecycle signal sent by `TenantMixin.save`. -/
inductive TenantEvent where
  | post_schema_sync (tenant : TenantRecord)
deriving DecidableEq

/-- `super().save()` of a tenant model: a successful persistence; saving a
record whose `pk` is `None` inserts it and assigns the fresh primary key,
saving a stored record keeps its key. Afterwards `pk` is always set. -/
def TenantRecord.superSave (t : TenantRecord) (freshPk : Nat) : TenantRecord :=
  { t with pk := some (t.pk.getD freshPk) }

/-- `TenantMixin.save` (models.py:57-61): calls `super().save()` first and
only then tests `self.pk is None`, sending `post_schema_sync` with the saved
instance as payload when the test succeeds. Returns the saved record
together with the list of signals sent. -/
def TenantMixin.save (t : TenantRecord) (freshPk : Nat) : TenantRecord × List TenantEvent :=
  let t' := t.superSave freshPk
  (t', if t'.pk = none then [TenantEvent.post_schema_sync t'] else [])

/-- The exception raised by an individual object's `delete()`. -/
inductive DeleteError where
  | raised (msg : String)
deriving DecidableEq

/-- One object of a `TenantQueryset`. Its `delete()` method (the framework's
per-instance delete together with any per-model cleanup; not part of this
file's source) is an oracle the aggregator consumes, so the object carries
its outcome: an exception, `None`, or a `(rows_affected, per-table counts)`
pair. -/
structure TenantObj where
  del : Except DeleteError (Option (Nat × List (String × Nat)))
deriving DecidableEq

/-- Python dict assignment `d[k] = v`: overwrite in place or append. -/
def setKey : List (String × Nat) → String → Nat → List (String × Nat)
  | [], k, v => [(k, v)]
  | (k', v') :: rest, k, v =>
    if k' = k then (k, v) :: rest else (k', v') :: setKey rest k v

/-- Python `dst.update(src)`: set every key of `src` in `dst`, overwriting
any existing count. -/
def dictUpdate (dst src : List (String × Nat)) : List (String × Nat) :=
  src.foldl (fun acc kv => setKey acc kv.1 kv.2) dst

/-- The loop of `TenantQueryset.delete`, threading `counter` and
`counter_dict`; at the end `if counter:` returns the pair, else `None`.
An object whose delete raises aborts the loop with that exception. -/
def TenantQueryset.deleteLoop :
    List TenantObj → Nat → List (String × Nat) →
    Except DeleteError (Option (Nat × List (String × Nat)))
  | [], counter, counter_dict =>
    .ok (if counter = 0 then none else some (counter, counter_dict))
  | o :: rest, counter, counter_dict =>
    match o.del with
    | .error e => .error e
    | .ok none => TenantQueryset.deleteLoop rest counter counter_dict
    | .ok (some (c, cd)) =>
      TenantQueryset.deleteLoop rest (counter + c) (dictUpdate counter_dict cd)

/-- `TenantQueryset.delete` (models.py:28-42). -/
def TenantQueryset.delete (objs : List TenantObj) :
    Except DeleteError (Option (Nat × List (String × Nat))) :=
  TenantQueryset.deleteLoop objs 0 []

/-- `true` when the object's `delete()` does not raise. -/
def delOk (o : TenantObj) : Bool :=
  match o.del with
  | .ok _ => true
  | .error _ => false

/-- The non-`None` outcomes of the objects' deletes, in order. -/
def okOutcomes (objs : List TenantObj) : List (Nat × List (String × Nat)) :=
  objs.filterMap (fun o => match o.del with | .ok r => r | .error _ => none)

/-- Adding into an association list: add `v` to the count stored at `k`,
appending the key when absent. -/
def addKey : List (String × Nat) → String → Nat → List (String × Nat)
  | [], k, v => [(k, v)]
  | (k', v') :: rest, k, v =>
    if k' = k then (k', v' + v) :: rest else (k', v') :: addKey rest k v

/-- Modelled from the spec: merge two detail maps "by adding counts per
table" (§4.5), for comparison with what `TenantQueryset.delete` computes. -/
def specMergeDetail (dst src : List (String × Nat)) : List (String × Nat) :=
  src.foldl (fun acc kv => addKey acc kv.1 kv.2) dst

/-- Modelled from the spec: §4.5's aggregation, for comparison — sum
`rows_affected`, merge `detail` maps by adding counts per table, `absent`
when the total is zero. -/
def specDeleteAggregate (objs : List TenantObj) : Option (Nat × List (String × Nat)) :=
  let rs := okOutcomes objs
  let total := (rs.map Prod.fst).sum
  if total = 0 then none
  else some (total, rs.foldl (fun acc r => specMergeDetail acc r.2) [])

/-- Severity of a system-check message. -/
inductive Severity where
  | critical
  | warning
deriving DecidableEq

/-- A system-check message (`checks.Critical` / `checks.Warning`). -/
structure Diagnostic where
  severity : Severity
  msg : String
  hint : Option String
  id : String
deriving DecidableEq

/-- The Python exceptions the check methods can raise. -/
inductive PyError where
  | attributeError (msg : String)
  | typeError (msg : String)
deriving DecidableEq

/-- A field of a many-to-many through model: its name and whether it is an
`RLSForeignKey` instance. -/
structure ThroughField where
  name : String
  is_rls_fk : Bool
deriving DecidableEq

/-- The through model of a many-to-many field. -/
structure ThroughModel where
  object_name : String
  auto_created : Bool
  fields : List ThroughField
deriving DecidableEq

/-- A field as produced by `cls._meta.get_fields()`: its name and the
attributes the checks inspect (`isinstance(f, RLSForeignKey)`,
`isinstance(f, RelatedField)`, `getattr(f, "primary_key", False)`,
`getattr(f, "unique", False)`); `m2m_through` is `some` exactly for
`ManyToManyField`s and holds their through model. -/
structure FieldDescriptor where
  name : String
  is_rls_fk : Bool
  is_relation : Bool
  is_primary_key : Bool
  is_unique : Bool
  m2m_through : Option ThroughModel
deriving DecidableEq

/-- A model class inheriting `MultitenantMixin`, as its `_meta` presents it
to the checks: object name, fields, and `unique_together`. -/
structure TableDescriptor where
  object_name : String
  fields : List FieldDescriptor
  unique_together : List (List String)
deriving DecidableEq

/-- `MultitenantMixin._get_tenant_field` (models.py:84-89): the first field
named `tenant`, else `None`. -/
def MultitenantMixin.get_tenant_field (t : TableDescriptor) : Option FieldDescriptor :=
  (t.fields.filter (fun f => f.name == "tenant")).head?

/-- `MultitenantMixin._run_check_tenant_field` (models.py:91-115). In the
wrong-type branch the source calls `checks.WARNING(...)`;
`django.core.checks.WARNING` is the integer severity constant 30, not the
`checks.Warning` message class, so that call raises `TypeError`. -/
def MultitenantMixin.run_check_tenant_field (t : TableDescriptor) : Except PyError (List Diagnostic) :=
  let object_name := t.object_name
  match MultitenantMixin.get_tenant_field t with
  | none =>
    .ok [{ severity := .critical,
           msg := "tenant field not present in " ++ object_name,
           hint := none,
           id := "tenant_schemas." ++ object_name ++ ".tenant_field.C001" }]
  | some f =>
    if !f.is_rls_fk then .error (.typeError "int object is not callable")
    else .ok []

/-- The body of `_run_check_m2m_fields`'s loop for one many-to-many field. -/
def MultitenantMixin.m2mFieldWarnings (owner_name field_name : String) (th : ThroughModel) : List Diagnostic :=
  let through_object_name := th.object_name
  let auto_or_manual := if th.auto_created then "auto-created" else "manual"
  match (th.fields.filter (fun f => f.name == "tenant")).head? with
  | none =>
    [{ severity := .warning,
       msg := "tenant field not present in Many2Many " ++ auto_or_manual ++ " model: " ++ through_object_name,
       hint := some ("Use custom defined model for through property in Many2Many field " ++
         owner_name ++ "." ++ field_name ++ " using MultitenantMixin in the model definition"),
       id := "tenant_schemas." ++ through_object_name ++ ".m2m_field.W001" }]
  | some tf =>
    if !tf.is_rls_fk then
      [{ severity := .warning,
         msg := "tenant field is not instance of RLSForeignKey in " ++ through_object_name,
         hint := none,
         id := "tenant_schemas." ++ through_object_name ++ ".m2m_field.W002" }]
    else []

/-- `MultitenantMixin._run_check_m2m_fields` (models.py:117-161): one group
of warnings per many-to-many field, in field order. -/
def MultitenantMixin.run_check_m2m_fields (t : TableDescriptor) : List Diagnostic :=
  t.fields.foldr
    (fun f acc =>
      (match f.m2m_through with
       | some th => MultitenantMixin.m2mFieldWarnings t.object_name f.name th
       | none => []) ++ acc)
    []

/-- `MultitenantMixin._run_check_unique_together` (models.py:163-179). When
`unique_together` is declared and `_get_tenant_field()` returned `None`, the
loop's first access to `tenant_field.name` raises `AttributeError`. -/
def MultitenantMixin.run_check_unique_together (t : TableDescriptor) : Except PyError (List Diagnostic) :=
  let object_name := t.object_name
  if t.unique_together = [] then .ok []
  else
    match MultitenantMixin.get_tenant_field t with
    | none => .error (.attributeError "NoneType object has no attribute name")
    | some tf =>
      .ok (t.unique_together.filterMap (fun uc =>
        if tf.name ∈ uc then none
        else some { severity := .warning,
                    msg := "tenant field is not in unique_together in " ++ object_name ++ ": " ++
                      String.intercalate ", " uc,
                    hint := none,
                    id := "tenant_schemas." ++ object_name ++ ".unique_together_without_tenant.W001" }))

/-- `MultitenantMixin._run_check_uniques` (models.py:181-201). -/
def MultitenantMixin.run_check_uniques (t : TableDescriptor) : List Diagnostic :=
  let object_name := t.object_name
  t.fields.filterMap (fun f =>
    if !f.is_relation && !f.is_primary_key && f.is_unique then
      some { severity := .warning,
             msg := "Field " ++ f.name ++ " marked as unique in " ++ object_name ++
               ". Must use unique together with the tenant_id.",
             hint := none,
             id := "tenant_schemas." ++ object_name ++ ".unique.W001" }
    else none)

/-- `MultitenantMixin.check` (models.py:75-82): `base` stands for
`super().check(**kwargs)`'s framework diagnostics; the four checks extend
them in order, any exception propagating. -/
def MultitenantMixin.check (base : List Diagnostic) (t : TableDescriptor) : Except PyError (List Diagnostic) := do
  let e1 ← MultitenantMixin.run_check_tenant_field t
  let e2 := MultitenantMixin.run_check_m2m_fields t
  let e3 ← MultitenantMixin.run_check_unique_together t
  let e4 := MultitenantMixin.run_check_uniques t
  return base ++ e1 ++ e2 ++ e3 ++ e4

/-- Modelled from the spec: the per-graph validation pass of §4.2 (the check
runner itself is Django machinery outside src/): run `MultitenantMixin.check`
on every tenant-scoped table of the graph in order, concatenating the
diagnostics; an exception raised by any table's checks propagates out of the
whole run. -/
def validate (g : List TableDescriptor) : Except PyError (List Diagnostic) :=
  match g with
  | [] => .ok []
  | t :: rest => do
    let ds ← MultitenantMixin.check [] t
    let rest' ← validate rest
    return ds ++ rest'

/-- A stored row of a `DomainMixin` table. -/
structure DomainRecord where
  pk : Nat
  domain : String
  tenant : Nat
  is_primary : Bool
deriving DecidableEq

/-- The queryset filter of `DomainMixin.save`:
`.filter(tenant=self.tenant, is_primary=True).exclude(pk=self.pk)`. -/
def isOtherPrimary (d r : DomainRecord) : Bool :=
  (r.tenant == d.tenant) && r.is_primary && (r.pk != d.pk)

/-- The rows the `domain_list` queryset matches. -/
def otherPrimaries (s : List DomainRecord) (d : DomainRecord) : List DomainRecord :=
  s.filter (isOtherPrimary d)

/-- `domain_list.update(is_primary=False)`: demote every matching row. -/
def demoteOthers (s : List DomainRecord) (d : DomainRecord) : List DomainRecord :=
  s.map (fun r => if isOtherPrimary d r then { r with is_primary := false } else r)

/-- `super().save()` of a domain record: update the row with this pk when one
is stored, insert otherwise. -/
def upsert (s : List DomainRecord) (d : DomainRecord) : List DomainRecord :=
  if s.any (fun r => r.pk == d.pk) then
    s.map (fun r => if r.pk == d.pk then d else r)
  else s ++ [d]

/-- `self.is_primary = self.is_primary or (not domain_list.exists())`. -/
def savedPrimary (s : List DomainRecord) (d : DomainRecord) : Bool :=
  d.is_primary || (otherPrimaries s d).isEmpty

/-- `DomainMixin.save` (models.py:220-231). `@transaction.atomic` makes the
whole method one atomic transition on the stored table `s`; no intermediate
state is observable. -/
def DomainMixin.save (s : List DomainRecord) (d : DomainRecord) : List DomainRecord :=
  let d' := { d with is_primary := savedPrimary s d }
  let s' := if savedPrimary s d then demoteOthers s d else s
  upsert s' d'

/-- What `DomainMixin.save` does to a stored row other than the one being
saved: demoted when the save commits as primary and the row matched the
queryset, untouched otherwise. -/
def saveImage (s : List DomainRecord) (d r : DomainRecord) : DomainRecord :=
  if savedPrimary s d && isOtherPrimary d r then { r with is_primary := false } else r

/-- The stored rows of tenant `t`. -/
def domainsOf (s : List DomainRecord) (t : Nat) : List DomainRecord :=
  s.filter (fun r => r.tenant == t)

/-- At most one primary domain per tenant (rows are identified by pk, which
the database keeps unique). -/
def PrimaryUnique (s : List DomainRecord) : Prop :=
  ∀ r1 ∈ s, ∀ r2 ∈ s,
    r1.tenant = r2.tenant → r1.is_primary = true → r2.is_primary = true → r1 = r2

/-- A tenant with at least one domain has a primary one. -/
def PrimaryExists (s : List DomainRecord) : Prop :=
  ∀ r ∈ s, ∃ q ∈ s, q.tenant = r.tenant ∧ q.is_primary = true

/-- The primary-domain invariant of §4.3: for a fixed tenant, at most one
domain is primary, and a tenant with at least one domain has exactly one
primary domain. -/
def DomainInvariant (s : List DomainRecord) : Prop :=
  PrimaryUnique s ∧ PrimaryExists s

/-- A tenant-scoped table with no `tenant` field and no `unique_together`. -/
def tableAlpha : TableDescriptor :=
  { object_name := "Alpha",
    fields := [{ name := "name", is_rls_fk := false, is_relation := false,
                 is_primary_key := false, is_unique := false, m2m_through := none }],
    unique_together := [] }

/-- A tenant-scoped table with no `tenant` field that declares a
multi-column uniqueness constraint. -/
def tableBeta : TableDescriptor :=
  { object_name := "Beta",
    fields := [{ name := "name", is_rls_fk := false, is_relation := false,
                 is_primary_key := false, is_unique := false, m2m_through := none }],
    unique_together := [["name", "value"]] }

/-- A tenant-scoped table whose `tenant` field is not an `RLSForeignKey`. -/
def tableGamma : TableDescriptor :=
  { object_name := "Gamma",
    fields := [{ name := "tenant", is_rls_fk := false, is_relation := true,
                 is_primary_key := false, is_unique := false, m2m_through := none }],
    unique_together := [] }

/-- A second tenant-scoped table with no `tenant` field. -/
def tableDelta : TableDescriptor :=
  { object_name := "Delta", fields := [], unique_together := [] }

/-- C1: `TenantMixin.save` sends no `post_schema_sync` signal on any save —
in particular none on a tenant identity's first successful persistence —
because it tests `self.pk is None` only after `super().save()` has assigned
the key; the second conjunct records that the save did assign the key. -/
theorem tenant_save_never_emits (t : TenantRecord) (freshPk : Nat) :
    (TenantMixin.save t freshPk).2 = [] ∧
    (TenantMixin.save t freshPk).1.pk = some (t.pk.getD freshPk) := by
  constructor
  · simp [TenantMixin.save, TenantRecord.superSave]
  · rfl

/-- C7: with no tenant bound on the connection, `get_tenant` raises the
no-tenant-bound error; it does not fall back to any default tenant. -/
theorem get_tenant_unbound_fails :
    get_tenant none =
      .error (.noTenantConfigured
        "No tenant configured in db connection, connection.tenant is none") := rfl

/-- C10: with a tenant bound, `get_tenant` returns an instance of the tenant
model: the bound object itself when it already is one, otherwise a fresh
instance carrying only the bound object's `schema_name` — its `domain_url`
(`du`) is not carried over. -/
theorem get_tenant_bound_returns_model_instance (t : TenantRecord) (sn du : String) :
    get_tenant (some (.instanceOfModel t)) = .ok t ∧
    get_tenant (some (.otherObject sn du)) =
      .ok { pk := none, domain_url := "", schema_name := sn } :=
  ⟨rfl, rfl⟩

/-- C3: the validation pass can raise on fully invalid input and then
returns no diagnostics: a tenant-scoped table with no `tenant` field that
declares `unique_together` makes `_run_check_unique_together` dereference
`None` (AttributeError), and a table whose `tenant` field is not an
`RLSForeignKey` makes `_run_check_tenant_field` call the integer constant
`checks.WARNING` (TypeError). -/
theorem check_raises_on_invalid_input :
    validate [tableBeta] = .error (.attributeError "NoneType object has no attribute name") ∧
    MultitenantMixin.check [] tableGamma = .error (.typeError "int object is not callable") := by
  constructor <;> rfl

/-- C9: a table lacking the tenant discriminator yields one Critical naming
it, and two such tables yield two separate Criticals — but on a graph where
one missing-discriminator table also declares `unique_together`, the run
raises instead of returning any Critical, so the claim fails on such
graphs. -/
theorem check_missing_tenant_field_critical :
    MultitenantMixin.check [] tableAlpha =
      .ok [{ severity := .critical, msg := "tenant field not present in Alpha",
             hint := none, id := "tenant_schemas.Alpha.tenant_field.C001" }] ∧
    validate [tableAlpha, tableDelta] =
      .ok [{ severity := .critical, msg := "tenant field not present in Alpha",
             hint := none, id := "tenant_schemas.Alpha.tenant_field.C001" },
           { severity := .critical, msg := "tenant field not present in Delta",
             hint := none, id := "tenant_schemas.Delta.tenant_field.C001" }] ∧
    validate [tableAlpha, tableBeta] =
      .error (.attributeError "NoneType object has no attribute name") := by
  refine ⟨rfl, rfl, rfl⟩

/-- The delete loop on a batch of successful deletes: the counter sums the
per-entity counts and the dict is the left fold of `dict.update`. -/
theorem deleteLoop_ok :
    ∀ (objs : List TenantObj), (∀ o ∈ objs, delOk o = true) →
    ∀ (counter : Nat) (counter_dict : List (String × Nat)),
      TenantQueryset.deleteLoop objs counter counter_dict =
        .ok (if counter + ((okOutcomes objs).map Prod.fst).sum = 0 then none
             else some (counter + ((okOutcomes objs).map Prod.fst).sum,
                        (okOutcomes objs).foldl (fun acc r => dictUpdate acc r.2) counter_dict)) := by
  intro objs
  induction objs with
  | nil => intro _ c d; simp [TenantQueryset.deleteLoop, okOutcomes]
  | cons o rest ih =>
    intro h c d
    have ho : delOk o = true := h o (List.mem_cons_self o rest)
    have hrest : ∀ x ∈ rest, delOk x = true := fun x hx => h x (List.mem_cons_of_mem o hx)
    cases hdel : o.del with
    | error e => simp [delOk, hdel] at ho
    | ok r =>
      cases r with
      | none =>
        simp only [TenantQueryset.deleteLoop, hdel]
        rw [ih hrest c d]
        simp [okOutcomes, List.filterMap_cons, hdel]
      | some p =>
        obtain ⟨cnt, cd⟩ := p
        simp only [TenantQueryset.deleteLoop, hdel]
        rw [ih hrest (c + cnt) (dictUpdate d cd)]
        simp [okOutcomes, List.filterMap_cons, hdel, Nat.add_assoc]

/-- C2 (amended): on a batch whose individual deletes all succeed,
`TenantQueryset.delete` returns the sum of the individual `rows_affected`
values together with the detail maps merged by `dict.update` — a later
entity's count for a table name overwrites an earlier one's instead of being
added — and returns absent when the total is zero. -/
theorem queryset_delete_aggregation (objs : List TenantObj)
    (h : ∀ o ∈ objs, delOk o = true) :
    TenantQueryset.delete objs =
      .ok (if ((okOutcomes objs).map Prod.fst).sum = 0 then none
           else some (((okOutcomes objs).map Prod.fst).sum,
                      (okOutcomes objs).foldl (fun acc r => dictUpdate acc r.2) [])) := by
  have := deleteLoop_ok objs h 0 []
  simpa [TenantQueryset.delete] using this

/-- Witness for the amended C2 theorem at a concrete two-entity batch. -/
theorem queryset_delete_aggregation_witness :
    TenantQueryset.delete [⟨.ok (some (1, [("t", 1)]))⟩, ⟨.ok (some (2, [("t", 2)]))⟩] =
      .ok (some (3, [("t", 2)])) :=
  (queryset_delete_aggregation [⟨.ok (some (1, [("t", 1)]))⟩, ⟨.ok (some (2, [("t", 2)]))⟩]
    (by decide)).trans (by decide)

/-- C2 counterexample: two entities both deleting rows of table `"t"`; the
code's `dict.update` keeps only the later count 2 where the spec's
add-per-table merge yields 3, so the detail map is not the add-merge of the
individual maps. -/
theorem queryset_delete_update_overwrites_cex :
    TenantQueryset.delete [⟨.ok (some (1, [("t", 1)]))⟩, ⟨.ok (some (2, [("t", 2)]))⟩] =
      .ok (some (3, [("t", 2)])) ∧
    specDeleteAggregate [⟨.ok (some (1, [("t", 1)]))⟩, ⟨.ok (some (2, [("t", 2)]))⟩] =
      some (3, [("t", 3)]) ∧
    (some (3, [("t", 2)]) : Option (Nat × List (String × Nat))) ≠ some (3, [("t", 3)]) := by
  refine ⟨by decide, by decide, by decide⟩

/-- The delete loop aborts with the raised exception as soon as a batch
contains a failing delete, whatever was accumulated so far. -/
theorem deleteLoop_error :
    ∀ (objs : List TenantObj), (∃ o ∈ objs, delOk o = false) →
    ∀ (counter : Nat) (counter_dict : List (String × Nat)),
      ∃ e, TenantQueryset.deleteLoop objs counter counter_dict = .error e := by
  intro objs
  induction objs with
  | nil => intro h; simp at h
  | cons o rest ih =>
    intro h c d
    cases hdel : o.del with
    | error e => exact ⟨e, by simp [TenantQueryset.deleteLoop, hdel]⟩
    | ok r =>
      have hrest : ∃ x ∈ rest, delOk x = false := by
        rcases h with ⟨x, hx, hfx⟩
        rcases List.mem_cons.mp hx with rfl | hx'
        · simp [delOk, hdel] at hfx
        · exact ⟨x, hx', hfx⟩
      cases r with
      | none => simpa [TenantQueryset.deleteLoop, hdel] using ih hrest c d
      | some p =>
        obtain ⟨cnt, cd⟩ := p
        simpa [TenantQueryset.deleteLoop, hdel] using ih hrest (c + cnt) (dictUpdate d cd)

/-- C8: if any entity's delete raises, `TenantQueryset.delete` propagates
the exception — the whole batch operation fails and no partial aggregated
outcome is returned. -/
theorem queryset_delete_propagates_failure (objs : List TenantObj)
    (h : ∃ o ∈ objs, delOk o = false) :
    ∃ e, TenantQueryset.delete objs = .error e := by
  simpa [TenantQueryset.delete] using deleteLoop_error objs h 0 []

/-- Witness for the C8 theorem: a three-entity batch whose second entity's
delete raises. -/
theorem queryset_delete_propagates_failure_witness :
    ∃ e, TenantQueryset.delete
      [⟨.ok (some (1, [("a", 1)]))⟩, ⟨.error (.raised "boom")⟩, ⟨.ok (some (1, [("c", 1)]))⟩] =
        .error e :=
  queryset_delete_propagates_failure
    [⟨.ok (some (1, [("a", 1)]))⟩, ⟨.error (.raised "boom")⟩, ⟨.ok (some (1, [("c", 1)]))⟩]
    (by decide)

/-- `saveImage` never changes a row's pk. -/
theorem saveImage_pk (s : List DomainRecord) (d r : DomainRecord) :
    (saveImage s d r).pk = r.pk := by
  unfold saveImage; split <;> rfl

/-- `saveImage` never changes a row's tenant. -/
theorem saveImage_tenant (s : List DomainRecord) (d r : DomainRecord) :
    (saveImage s d r).tenant = r.tenant := by
  unfold saveImage; split <;> rfl

/-- A row still primary after `saveImage` was untouched, was primary before,
and — when the save committed as primary — did not match the demotion
queryset. -/
theorem saveImage_primary (s : List DomainRecord) (d r : DomainRecord)
    (h : (saveImage s d r).is_primary = true) :
    saveImage s d r = r ∧ r.is_primary = true ∧
      (savedPrimary s d = true → isOtherPrimary d r = false) := by
  unfold saveImage at *
  by_cases hc : (savedPrimary s d && isOtherPrimary d r) = true
  · rw [if_pos hc] at h; simp at h
  · rw [if_neg hc] at h
    refine ⟨if_neg hc, h, ?_⟩
    intro hp
    cases hop : isOtherPrimary d r
    · rfl
    · exact absurd (by simp [hp, hop]) hc

/-- Unfolding the `isOtherPrimary` queryset predicate. -/
theorem isOtherPrimary_eq_true {d r : DomainRecord} :
    isOtherPrimary d r = true ↔
      r.tenant = d.tenant ∧ r.is_primary = true ∧ r.pk ≠ d.pk := by
  simp [isOtherPrimary, and_assoc]

/-- When the save does not commit as primary, the record asked not to be
primary and some other primary domain of the tenant exists. -/
theorem savedPrimary_false {s : List DomainRecord} {d : DomainRecord}
    (h : savedPrimary s d = false) :
    d.is_primary = false ∧ ∃ w ∈ s, isOtherPrimary d w = true := by
  unfold savedPrimary at h
  rcases Bool.or_eq_false_iff.mp h with ⟨h1, h2⟩
  refine ⟨h1, ?_⟩
  have hne : otherPrimaries s d ≠ [] := by
    intro hnil
    rw [hnil] at h2
    simp at h2
  obtain ⟨w, hw⟩ := List.exists_mem_of_ne_nil _ hne
  exact ⟨w, (List.mem_filter.mp hw).1, (List.mem_filter.mp hw).2⟩

/-- A row neither demoted (save not primary) nor matching the queryset is
untouched. -/
theorem saveImage_eq_self {s : List DomainRecord} {d r : DomainRecord}
    (h : savedPrimary s d = false ∨ isOtherPrimary d r = false) :
    saveImage s d r = r := by
  unfold saveImage
  rcases h with h | h <;> rw [h] <;> simp

/-- A queryset-matching row is demoted when the save commits as primary. -/
theorem saveImage_demotes {s : List DomainRecord} {d r : DomainRecord}
    (hp : savedPrimary s d = true) (ho : isOtherPrimary d r = true) :
    saveImage s d r = { r with is_primary := false } := by
  unfold saveImage; rw [hp, ho]; rfl

/-- `DomainMixin.save` is the upsert of the saved record over the images of
the stored rows. -/
theorem domainSave_eq_upsert (s : List DomainRecord) (d : DomainRecord) :
    DomainMixin.save s d =
      upsert (s.map (saveImage s d)) { d with is_primary := savedPrimary s d } := by
  unfold DomainMixin.save
  by_cases hp : savedPrimary s d = true
  · rw [if_pos hp]
    unfold demoteOthers saveImage
    rw [hp]
    simp
  · have hb : savedPrimary s d = false := by
      cases hsp : savedPrimary s d
      · rfl
      · exact absurd hsp hp
    rw [if_neg hp]
    unfold saveImage
    rw [hb]
    simp

/-- The saved record is stored by `upsert`. -/
theorem mem_upsert_self (s : List DomainRecord) (d : DomainRecord) : d ∈ upsert s d := by
  unfold upsert
  by_cases ha : s.any (fun r => r.pk == d.pk) = true
  · rw [if_pos ha]
    obtain ⟨r0, hr0, hpk⟩ := List.any_eq_true.mp ha
    exact List.mem_map.mpr ⟨r0, hr0, by rw [if_pos hpk]⟩
  · rw [if_neg ha]
    exact List.mem_append.mpr (Or.inr (List.mem_singleton.mpr rfl))

/-- A stored row with a different pk survives `upsert`. -/
theorem mem_upsert_of_mem (s : List DomainRecord) (d r : DomainRecord)
    (hr : r ∈ s) (hpk : r.pk ≠ d.pk) : r ∈ upsert s d := by
  unfold upsert
  by_cases ha : s.any (fun x => x.pk == d.pk) = true
  · rw [if_pos ha]
    refine List.mem_map.mpr ⟨r, hr, ?_⟩
    rw [if_neg (by simpa using hpk)]
  · rw [if_neg ha]
    exact List.mem_append.mpr (Or.inl hr)

/-- Every row after `upsert` is the saved record or a surviving row with a
different pk. -/
theorem mem_upsert_elim (s : List DomainRecord) (d r' : DomainRecord)
    (h : r' ∈ upsert s d) : r' = d ∨ (r' ∈ s ∧ r'.pk ≠ d.pk) := by
  unfold upsert at h
  by_cases ha : s.any (fun x => x.pk == d.pk) = true
  · rw [if_pos ha] at h
    obtain ⟨r0, hr0, heq⟩ := List.mem_map.mp h
    by_cases hpk : (r0.pk == d.pk) = true
    · rw [if_pos hpk] at heq
      exact Or.inl heq.symm
    · rw [if_neg hpk] at heq
      refine Or.inr ⟨heq ▸ hr0, ?_⟩
      rw [← heq]
      simpa using hpk
  · rw [if_neg ha] at h
    rcases List.mem_append.mp h with h1 | h2
    · refine Or.inr ⟨h1, fun hcontra => ?_⟩
      exact ha (List.any_eq_true.mpr ⟨r', h1, by simpa using hcontra⟩)
    · exact Or.inl (List.mem_singleton.mp h2)

/-- The record being saved is stored, with the computed primary flag. -/
theorem savedRecord_mem (s : List DomainRecord) (d : DomainRecord) :
    { d with is_primary := savedPrimary s d } ∈ DomainMixin.save s d := by
  rw [domainSave_eq_upsert]
  exact mem_upsert_self _ _

/-- A stored row with a different pk is stored as its image. -/
theorem saveImage_mem (s : List DomainRecord) (d r : DomainRecord)
    (hr : r ∈ s) (hpk : r.pk ≠ d.pk) : saveImage s d r ∈ DomainMixin.save s d := by
  rw [domainSave_eq_upsert]
  apply mem_upsert_of_mem
  · exact List.mem_map.mpr ⟨r, hr, rfl⟩
  · rw [saveImage_pk]
    exact hpk

/-- Every row after `DomainMixin.save` is the saved record or the image of a
stored row with a different pk. -/
theorem mem_save_elim (s : List DomainRecord) (d r' : DomainRecord)
    (h : r' ∈ DomainMixin.save s d) :
    r' = { d with is_primary := savedPrimary s d } ∨
      ∃ r ∈ s, r.pk ≠ d.pk ∧ r' = saveImage s d r := by
  rw [domainSave_eq_upsert] at h
  rcases mem_upsert_elim _ _ _ h with h1 | ⟨h2, hpk⟩
  · exact Or.inl h1
  · obtain ⟨r, hr, himg⟩ := List.mem_map.mp h2
    refine Or.inr ⟨r, hr, ?_, himg.symm⟩
    rw [← himg] at hpk
    rw [saveImage_pk] at hpk
    exact hpk

/-- C5: for a tenant with an existing primary domain `d1`, saving a new
domain record `d2` (fresh pk) with `is_primary = true` leaves `d1` stored
demoted and `d2` stored as the unique primary domain of the tenant. The
`@transaction.atomic` save is one atomic transition of the stored table, so
no intermediate state is observable. -/
theorem domain_save_new_primary_demotes_old (s : List DomainRecord) (d1 d2 : DomainRecord)
    (h1 : d1 ∈ s) (ht : d1.tenant = d2.tenant) (hp1 : d1.is_primary = true)
    (hp2 : d2.is_primary = true) (hfresh : ∀ r ∈ s, r.pk ≠ d2.pk) :
    d2 ∈ DomainMixin.save s d2 ∧
    { d1 with is_primary := false } ∈ DomainMixin.save s d2 ∧
    ∀ r' ∈ DomainMixin.save s d2, r'.is_primary = true → r'.tenant = d2.tenant → r' = d2 := by
  have hp : savedPrimary s d2 = true := by unfold savedPrimary; rw [hp2]; rfl
  have hd2eq : { d2 with is_primary := savedPrimary s d2 } = d2 := by
    rw [hp, ← hp2]
  refine ⟨?_, ?_, ?_⟩
  · have hm := savedRecord_mem s d2
    rwa [hd2eq] at hm
  · have ho : isOtherPrimary d2 d1 = true :=
      isOtherPrimary_eq_true.mpr ⟨ht, hp1, hfresh d1 h1⟩
    have hm := saveImage_mem s d2 d1 h1 (hfresh d1 h1)
    rwa [saveImage_demotes hp ho] at hm
  · intro r' hr' hrp hrt
    rcases mem_save_elim s d2 r' hr' with h | ⟨r, hr, hpk, rfl⟩
    · rw [h, hd2eq]
    · obtain ⟨heq, hrp', himp⟩ := saveImage_primary s d2 r hrp
      rw [heq] at hrt
      exact absurd (isOtherPrimary_eq_true.mpr ⟨hrt, hrp', hpk⟩) (by simp [himp hp])

/-- Witness for the C5 theorem: tenant 3 holds the primary domain `pk 1`;
saving fresh `pk 2` as primary stores it (the theorem's other conjuncts also
hold at this input). -/
theorem domain_save_new_primary_demotes_old_witness :
    ({ pk := 2, domain := "d2", tenant := 3, is_primary := true } : DomainRecord) ∈
      DomainMixin.save [{ pk := 1, domain := "d1", tenant := 3, is_primary := true }]
        { pk := 2, domain := "d2", tenant := 3, is_primary := true } :=
  (domain_save_new_primary_demotes_old
    [{ pk := 1, domain := "d1", tenant := 3, is_primary := true }]
    { pk := 1, domain := "d1", tenant := 3, is_primary := true }
    { pk := 2, domain := "d2", tenant := 3, is_primary := true }
    (by decide) rfl rfl rfl (by decide)).1

/-- C6: the flag `DomainMixin.save` stores is the requested flag OR-ed with
the absence of any other primary domain of the tenant; in particular a
tenant with zero stored domains gets its first domain stored with
`is_primary = true` even when the save requested `false`. -/
theorem domain_save_first_domain_forced_primary (s : List DomainRecord) (d : DomainRecord) :
    { d with is_primary := d.is_primary || (otherPrimaries s d).isEmpty } ∈
        DomainMixin.save s d ∧
    (domainsOf s d.tenant = [] → d.is_primary = false →
      { d with is_primary := true } ∈ DomainMixin.save s d) := by
  constructor
  · exact savedRecord_mem s d
  · intro hdom hreq
    have hop : otherPrimaries s d = [] := by
      unfold otherPrimaries
      apply List.filter_eq_nil_iff.mpr
      intro r hr
      have hrt : ¬((fun r : DomainRecord => r.tenant == d.tenant) r = true) :=
        List.filter_eq_nil_iff.mp hdom r hr
      simp only [beq_iff_eq] at hrt
      simp [isOtherPrimary, hrt]
    have hp : savedPrimary s d = true := by
      unfold savedPrimary
      rw [hop, hreq]
      rfl
    have hm := savedRecord_mem s d
    rwa [hp] at hm

/-- Witness for the C6 theorem: tenant 7 has no domains; its first domain is
saved with `is_primary = false` and stored with `is_primary = true`. -/
theorem domain_save_first_domain_forced_primary_witness :
    ({ pk := 1, domain := "a.example.com", tenant := 7, is_primary := true } : DomainRecord) ∈
      DomainMixin.save []
        { pk := 1, domain := "a.example.com", tenant := 7, is_primary := false } :=
  (domain_save_first_domain_forced_primary []
    { pk := 1, domain := "a.example.com", tenant := 7, is_primary := false }).2 rfl rfl

/-- C4 (amended): provided the save does not move an already stored domain
record (same pk) to a different tenant, `DomainMixin.save` preserves the
primary-domain invariant. Pks are unique in the stored table. -/
theorem domain_save_preserves_invariant (s : List DomainRecord) (d : DomainRecord)
    (_hnd : (s.map DomainRecord.pk).Nodup) (hinv : DomainInvariant s)
    (hten : ∀ r ∈ s, r.pk = d.pk → r.tenant = d.tenant) :
    DomainInvariant (DomainMixin.save s d) := by
  obtain ⟨hu, he⟩ := hinv
  constructor
  · intro r1' h1' r2' h2' htt hp1' hp2'
    rcases mem_save_elim s d r1' h1' with e1 | ⟨a, ha, hapk, rfl⟩ <;>
      rcases mem_save_elim s d r2' h2' with e2 | ⟨b, hb, hbpk, rfl⟩
    · rw [e1, e2]
    · exfalso
      subst e1
      have hp : savedPrimary s d = true := hp1'
      obtain ⟨heqb, hbp, himpb⟩ := saveImage_primary s d b hp2'
      have hbt : b.tenant = d.tenant := by
        rw [heqb] at htt
        exact htt.symm
      exact absurd (isOtherPrimary_eq_true.mpr ⟨hbt, hbp, hbpk⟩) (by simp [himpb hp])
    · exfalso
      subst e2
      have hp : savedPrimary s d = true := hp2'
      obtain ⟨heqa, hap, himpa⟩ := saveImage_primary s d a hp1'
      have hat : a.tenant = d.tenant := by
        rw [heqa] at htt
        exact htt
      exact absurd (isOtherPrimary_eq_true.mpr ⟨hat, hap, hapk⟩) (by simp [himpa hp])
    · obtain ⟨hea, hap, _⟩ := saveImage_primary s d a hp1'
      obtain ⟨heb, hbp, _⟩ := saveImage_primary s d b hp2'
      rw [hea, heb] at htt ⊢
      exact hu a ha b hb htt hap hbp
  · intro r' hr'
    rcases mem_save_elim s d r' hr' with e | ⟨a, ha, hapk, rfl⟩
    · subst e
      cases hp : savedPrimary s d with
      | true =>
        refine ⟨_, savedRecord_mem s d, rfl, hp⟩
      | false =>
        obtain ⟨_, w, hw, hwo⟩ := savedPrimary_false hp
        obtain ⟨hwt, hwp, hwpk⟩ := isOtherPrimary_eq_true.mp hwo
        refine ⟨saveImage s d w, saveImage_mem s d w hw hwpk, ?_, ?_⟩
        · rw [saveImage_eq_self (Or.inl hp)]
          exact hwt
        · rw [saveImage_eq_self (Or.inl hp)]
          exact hwp
    · by_cases hat : a.tenant = d.tenant
      · cases hp : savedPrimary s d with
        | true =>
          refine ⟨_, savedRecord_mem s d, ?_, hp⟩
          rw [saveImage_tenant]
          exact hat.symm
        | false =>
          obtain ⟨_, w, hw, hwo⟩ := savedPrimary_false hp
          obtain ⟨hwt, hwp, hwpk⟩ := isOtherPrimary_eq_true.mp hwo
          refine ⟨saveImage s d w, saveImage_mem s d w hw hwpk, ?_, ?_⟩
          · rw [saveImage_eq_self (Or.inl hp), saveImage_tenant, hwt]
            exact hat.symm
          · rw [saveImage_eq_self (Or.inl hp)]
            exact hwp
      · obtain ⟨q, hq, hqt, hqp⟩ := he a ha
        have hqpk : q.pk ≠ d.pk := by
          intro hc
          apply hat
          rw [← hqt]
          exact hten q hq hc
        have hqb : (q.tenant == d.tenant) = false := by
          rw [beq_eq_false_iff_ne, hqt]
          exact hat
        have hqo : isOtherPrimary d q = false := by
          simp [isOtherPrimary, hqb]
        refine ⟨saveImage s d q, saveImage_mem s d q hq hqpk, ?_, ?_⟩
        · rw [saveImage_eq_self (Or.inr hqo), saveImage_tenant]
          exact hqt
        · rw [saveImage_eq_self (Or.inr hqo)]
          exact hqp

/-- Witness for the amended C4 theorem: tenant 1 holds one primary domain
and a fresh second domain is saved as primary. -/
theorem domain_save_preserves_invariant_witness :
    DomainInvariant (DomainMixin.save
      [{ pk := 1, domain := "x", tenant := 1, is_primary := true }]
      { pk := 2, domain := "y", tenant := 1, is_primary := true }) :=
  domain_save_preserves_invariant _ _ (by decide)
    (by unfold DomainInvariant PrimaryUnique PrimaryExists; decide) (by decide)

/-- C4 counterexample: tenant 1 stores primary `pk 1` and non-primary
`pk 2`; saving `pk 1` re-assigned to tenant 2 leaves tenant 1 with a stored
domain but no primary one, so the save protocol as coded does not preserve
the invariant on every execution. -/
theorem domain_save_retenant_breaks_invariant :
    DomainInvariant [{ pk := 1, domain := "a", tenant := 1, is_primary := true },
                     { pk := 2, domain := "b", tenant := 1, is_primary := false }] ∧
    (([{ pk := 1, domain := "a", tenant := 1, is_primary := true },
       { pk := 2, domain := "b", tenant := 1, is_primary := false }] :
        List DomainRecord).map DomainRecord.pk).Nodup ∧
    ¬ DomainInvariant (DomainMixin.save
        [{ pk := 1, domain := "a", tenant := 1, is_primary := true },
         { pk := 2, domain := "b", tenant := 1, is_primary := false }]
        { pk := 1, domain := "a", tenant := 2, is_primary := true }) := by
  unfold DomainInvariant PrimaryUnique PrimaryExists
  refine ⟨by decide, by decide, by decide⟩

end TenantSchemas
